import Mathlib

/-!
Shallow embedding of `lavalink/playermanager.py` (class `PlayerManager`) and
the node-registry interface it consults, together with theorems checking the
specification's claims about session lifecycle management.

Modelling conventions:
* Python objects become Lean structures; the mutable `players` dict becomes an
  association list in insertion order (dict keys are unique in every state the
  code can build, so removing every entry with a key coincides with `dict.pop`).
* Side effects (commands sent over a node's transport by `Node._send`, log
  lines emitted via `self._lavalink._logger`, invocations of a player's
  `cleanup()` hook) are recorded in explicit event lists on the state.
* Python exceptions become an error inductive; a fallible operation returns
  `Except PyErr α × PlayerManager` (result, post-state).
* A player's `node` attribute is modelled structurally: it holds the node's
  attributes as bound at creation time. The claims read only `name`,
  `region`, `available` and `penalty` through it.
-/

/-- A Lavalink node as seen by the player manager: stable name, declared
region, availability flag, numeric load penalty, and the `_original_players`
bookkeeping list (hosted sessions, identified here by their guild ids). -/
structure Node where
  name : String
  region : String
  available : Bool
  penalty : Nat
  original_players : List Nat
deriving DecidableEq

/-- A player (playback session). `guild_id` and `node` are the constructor
arguments of the injected player class (`BasePlayer` lives outside this
slice; per the session-factory contract it accepts `(guild_id, node)`).
`cleanup_fails` records whether this player's `cleanup()` hook raises. -/
structure Player where
  guild_id : Nat
  node : Option Node
  cleanup_fails : Bool
deriving DecidableEq

/-- A remote command sent through a node's transport (`Node._send`). -/
structure Command where
  node_name : String
  op : String
  guildId : Nat
deriving DecidableEq

/-- The injected player class (session factory). `is_base_player` is the
result of `issubclass(player, BasePlayer)`; `prod_cleanup_fails` says whether
the players it constructs have a raising `cleanup()` hook. -/
structure Factory where
  is_base_player : Bool
  prod_cleanup_fails : Bool
deriving DecidableEq

/-- Python exceptions that the modelled code can raise. -/
inductive PyErr where
  | valueError (msg : String)
  | nodeException (msg : String)
  | attributeError (msg : String)
  | cleanupError (msg : String)
deriving DecidableEq

/-- `PlayerManager.create` returns the cached/new player on the normal paths
but returns the `node` argument itself on the explicit-node path
(`if node: return node`), so its dynamic result type is a sum. -/
inductive CreateResult where
  | player (p : Player)
  | node (n : Node)
deriving DecidableEq

/-- The player manager together with the ambient client state it touches:
`players` and `default_player` are its own attributes; `nodes` models
`self._lavalink.node_manager`'s registry (in registration order); `sent`,
`cleaned` and `logs` record the side effects of `_send`, `cleanup()` and the
logger. -/
structure PlayerManager where
  players : List (Nat × Player)
  default_player : Factory
  nodes : List Node
  sent : List Command
  cleaned : List Nat
  logs : List String
deriving DecidableEq

/-- Lookup in the `players` dict: first (unique) entry with the key. -/
def getPlayer : List (Nat × Player) → Nat → Option Player
  | [], _ => none
  | e :: rest, g => if e.1 = g then some e.2 else getPlayer rest g

/-- `players.pop(g)`: drop the entry keyed `g` (keys are unique). -/
def popPlayer : List (Nat × Player) → Nat → List (Nat × Player)
  | [], _ => []
  | e :: rest, g => if e.1 = g then popPlayer rest g else e :: popPlayer rest g

/-- Nodes paired with their registration index, for in-place registry
updates. -/
def enumNodes : List Node → Nat → List (Nat × Node)
  | [], _ => []
  | n :: rest, i => (i, n) :: enumNodes rest (i + 1)

/-- First indexed node with the strictly lowest penalty (ties broken by
first-registered order). -/
def bestNode : List (Nat × Node) → Option (Nat × Node)
  | [] => none
  | p :: rest =>
    match bestNode rest with
    | none => some p
    | some q => if q.2.penalty < p.2.penalty then some q else some p

/-- Modelled from the spec: the node registry's available candidates
(`find_ideal_node` lives in the node-manager module, which is not part of
this slice). Spec: restrict to available nodes. -/
def availNodes (nodes : List Node) : List (Nat × Node) :=
  (enumNodes nodes 0).filter (fun e => e.2.available)

/-- Modelled from the spec: available candidates whose region matches. -/
def regionNodes (nodes : List Node) (r : String) : List (Nat × Node) :=
  (availNodes nodes).filter (fun e => e.2.region = r)

/-- Modelled from the spec: `find_ideal_node(region)` — among available nodes
whose region matches, or all available nodes when no region match exists,
return the one with the lowest penalty (first-registered wins ties);
`none` when no available node exists. -/
def findIdealNode (nodes : List Node) (r : String) : Option (Nat × Node) :=
  bestNode (if (regionNodes nodes r).isEmpty then availNodes nodes else regionNodes nodes r)

/-- `region = self._lavalink.node_manager.get_region(endpoint)` guarded by
`if endpoint:` (an empty string is falsy, keeping the incoming region).
`get_region` is an external collaborator, passed as a function. -/
def resolveRegion (region : String) (endpoint : Option String) (get_region : String → String) : String :=
  match endpoint with
  | some e => if e.isEmpty then region else get_region e
  | none => region

/-- `PlayerManager.__init__(lavalink, player)`: validates
`issubclass(player, BasePlayer)` (raising `ValueError` otherwise) before any
attribute is assigned, then starts with an empty `players` dict. -/
def PlayerManager.init (nodes : List Node) (player : Factory) : Except PyErr PlayerManager :=
  if player.is_base_player then
    Except.ok { players := [], default_player := player, nodes := nodes,
                sent := [], cleaned := [], logs := [] }
  else
    Except.error (PyErr.valueError "Player must implement BasePlayer or DefaultPlayer.")

/-- `PlayerManager.get(guild_id)`: pure dict lookup. -/
def PlayerManager.get (s : PlayerManager) (guild_id : Nat) : Option Player :=
  getPlayer s.players guild_id

/-- `PlayerManager.create(guild_id, region='eu', endpoint=None, node=None)`:
return the cached player when one exists; `if node: return node` (the node
object itself); else resolve the region from the endpoint when given, pick a
node via `find_ideal_node`, raise `NodeException` when none, else construct
the player, register it in the dict and in the chosen node's
`_original_players`, log, and return it. -/
def PlayerManager.create (s : PlayerManager) (guild_id : Nat) (region : String)
    (endpoint : Option String) (node : Option Node) (get_region : String → String) :
    Except PyErr CreateResult × PlayerManager :=
  match getPlayer s.players guild_id with
  | some p => (Except.ok (CreateResult.player p), s)
  | none =>
    match node with
    | some n => (Except.ok (CreateResult.node n), s)
    | none =>
      match findIdealNode s.nodes (resolveRegion region endpoint get_region) with
      | none => (Except.error (PyErr.nodeException "No available nodes!"), s)
      | some (i, nd) =>
        let p : Player :=
          { guild_id := guild_id, node := some nd,
            cleanup_fails := s.default_player.prod_cleanup_fails }
        (Except.ok (CreateResult.player p),
         { s with
             players := s.players ++ [(guild_id, p)],
             nodes := s.nodes.set i { nd with original_players := nd.original_players ++ [guild_id] },
             logs := s.logs ++ ["[NODE-" ++ nd.name ++ "] Successfully created a player"] })

/-- `PlayerManager.destroy(guild_id)`: return when the guild is not cached;
else pop the entry, send `op='destroy', guildId=player.guild_id` when
`player.node and player.node.available`, then log a line that reads
`player.node.name` — which raises `AttributeError` when the node is `None`. -/
def PlayerManager.destroy (s : PlayerManager) (guild_id : Nat) : Except PyErr Unit × PlayerManager :=
  match getPlayer s.players guild_id with
  | none => (Except.ok (), s)
  | some p =>
    let s1 := { s with players := popPlayer s.players guild_id }
    match p.node with
    | none =>
      (Except.error (PyErr.attributeError "NoneType object has no attribute name"), s1)
    | some nd =>
      let s2 :=
        if nd.available then
          { s1 with sent := s1.sent ++ [{ node_name := nd.name, op := "destroy", guildId := p.guild_id }] }
        else s1
      (Except.ok (), { s2 with logs := s2.logs ++ ["[NODE-" ++ nd.name ++ "] Successfully destroyed its player"] })

/-- `PlayerManager.remove(guild_id)`: when cached, pop the entry and then
invoke the player's `cleanup()` hook (which may raise); otherwise no-op. -/
def PlayerManager.remove (s : PlayerManager) (guild_id : Nat) : Except PyErr Unit × PlayerManager :=
  match getPlayer s.players guild_id with
  | none => (Except.ok (), s)
  | some p =>
    let s1 := { s with players := popPlayer s.players guild_id, cleaned := s.cleaned ++ [p.guild_id] }
    if p.cleanup_fails then (Except.error (PyErr.cleanupError "cleanup raised"), s1)
    else (Except.ok (), s1)

/-! Basic lemmas about the dict and the node-selection helpers. -/

theorem getPlayer_popPlayer (ps : List (Nat × Player)) (g : Nat) :
    getPlayer (popPlayer ps g) g = none := by
  induction ps with
  | nil => rfl
  | cons e rest ih =>
    by_cases h : e.1 = g
    · simp [popPlayer, h, ih]
    · simp [popPlayer, getPlayer, h, ih]

/-! Concrete states used by counterexamples and witnesses. -/

/-- A valid factory (subclasses `BasePlayer`, non-raising cleanup). -/
def fOk : Factory := { is_base_player := true, prod_cleanup_fails := false }

/-- An available node used by the C1 failing input. -/
def nodeA : Node := { name := "A", region := "eu", available := true, penalty := 1, original_players := [] }

/-- C1 failing input: fresh manager, one available node, no session cached. -/
def st1 : PlayerManager :=
  { players := [], default_player := fOk, nodes := [nodeA], sent := [], cleaned := [], logs := [] }

/-! Theorems for the claims. -/

/-- C1: at the failing input (no session for guild 1, explicit available node
`nodeA`), `create(1, node=nodeA)` returns the node object itself and leaves
the whole state unchanged: no session is instantiated, nothing is registered
under the guild id or in the node's hosted-session list. This contradicts
both the claim and the function's own docstring. -/
theorem create_explicit_node_returns_node :
    PlayerManager.create st1 1 "eu" none (some nodeA) (fun _ => "") =
      (Except.ok (CreateResult.node nodeA), st1) := rfl

/-- C4: when a session is already cached for the guild, `create` returns that
identical session and the state is unchanged, for every combination of
region, endpoint and node arguments (in particular no node selection and no
side effect on the mapping or any node happens). -/
theorem create_existing_returns_same (s : PlayerManager) (g : Nat) (p : Player)
    (h : getPlayer s.players g = some p)
    (region : String) (endpoint : Option String) (node : Option Node)
    (get_region : String → String) :
    PlayerManager.create s g region endpoint node get_region =
      (Except.ok (CreateResult.player p), s) := by
  simp [PlayerManager.create, h]

/-- A cached player and a manager state holding it, for the C4 witness. -/
def pC4 : Player := { guild_id := 1, node := some nodeA, cleanup_fails := false }

/-- Manager state with guild 1 cached, for the C4 witness. -/
def stC4 : PlayerManager :=
  { players := [(1, pC4)], default_player := fOk, nodes := [], sent := [], cleaned := [], logs := [] }

/-- Witness for C4 at a concrete state: guild 1 cached, contradictory hints
supplied. -/
theorem create_existing_returns_same_witness :
    getPlayer stC4.players 1 = some pC4 ∧
    PlayerManager.create stC4 1 "us" (some "wss://us.example") (some nodeA) (fun _ => "us") =
      (Except.ok (CreateResult.player pC4), stC4) :=
  ⟨rfl, create_existing_returns_same stC4 1 pC4 rfl "us" (some "wss://us.example") (some nodeA)
    (fun _ => "us")⟩

/-- C3: when no session is cached, no explicit node is given, and node
resolution yields no node, `create` raises `NodeException('No available
nodes!')` and the state — the mapping and every node's hosted-session list —
is exactly unchanged. -/
theorem create_no_node_raises (s : PlayerManager) (g : Nat) (region : String)
    (endpoint : Option String) (get_region : String → String)
    (h : getPlayer s.players g = none)
    (hres : findIdealNode s.nodes (resolveRegion region endpoint get_region) = none) :
    PlayerManager.create s g region endpoint none get_region =
      (Except.error (PyErr.nodeException "No available nodes!"), s) := by
  simp [PlayerManager.create, h, hres]

/-- Witness for C3: empty registry, empty mapping. -/
theorem create_no_node_raises_witness :
    getPlayer ([] : List (Nat × Player)) 1 = none ∧
    findIdealNode ([] : List Node) (resolveRegion "eu" none (fun _ => "")) = none ∧
    PlayerManager.create
        { players := [], default_player := fOk, nodes := [], sent := [], cleaned := [], logs := [] }
        1 "eu" none none (fun _ => "") =
      (Except.error (PyErr.nodeException "No available nodes!"),
       { players := [], default_player := fOk, nodes := [], sent := [], cleaned := [], logs := [] }) :=
  ⟨rfl, rfl, create_no_node_raises _ 1 "eu" none (fun _ => "") rfl rfl⟩

/-- C7: construction validates the factory: a factory that is not a
`BasePlayer` subclass is rejected with an error before any manager state
exists, and every conforming factory yields a manager with an empty mapping.
(The code raises `ValueError`; the spec's taxonomy names this condition
`InvalidConfigurationError`.) -/
theorem init_factory_validation (nodes : List Node) (f : Factory) :
    (f.is_base_player = false →
      PlayerManager.init nodes f =
        Except.error (PyErr.valueError "Player must implement BasePlayer or DefaultPlayer.")) ∧
    (f.is_base_player = true →
      ∃ s, PlayerManager.init nodes f = Except.ok s ∧ s.players = []) := by
  constructor <;> intro h <;> simp [PlayerManager.init, h]

/-- Witness for C7: both the rejecting and the succeeding branch at concrete
factories. -/
theorem init_factory_validation_witness :
    PlayerManager.init [] (Factory.mk false false) =
      Except.error (PyErr.valueError "Player must implement BasePlayer or DefaultPlayer.") ∧
    ∃ s, PlayerManager.init [] fOk = Except.ok s ∧ s.players = [] :=
  ⟨(init_factory_validation [] (Factory.mk false false)).1 rfl,
   (init_factory_validation [] fOk).2 rfl⟩

/-- C8: `destroy` on a guild with no cached session is a no-op: it returns
without error and the whole state (mapping, sent commands) is unchanged. -/
theorem destroy_missing_noop (s : PlayerManager) (g : Nat)
    (h : getPlayer s.players g = none) :
    PlayerManager.destroy s g = (Except.ok (), s) := by
  simp [PlayerManager.destroy, h]

/-- Witness for C8 at a concrete state. -/
theorem destroy_missing_noop_witness :
    getPlayer st1.players 9 = none ∧
    PlayerManager.destroy st1 9 = (Except.ok (), st1) :=
  ⟨rfl, destroy_missing_noop st1 9 rfl⟩

/-- A registered player whose `node` attribute is `None`. -/
def pNoNode : Player := { guild_id := 5, node := none, cleanup_fails := false }

/-- Manager state caching `pNoNode` under guild 5 (C2 counterexample input). -/
def stC2 : PlayerManager :=
  { players := [(5, pNoNode)], default_player := fOk, nodes := [], sent := [], cleaned := [], logs := [] }

/-- C2 counterexample: `destroy` on a registered guild whose session's node
is `None` raises `AttributeError` (the success-log line dereferences
`player.node.name`), refuting the claim that it returns without error. -/
theorem destroy_none_node_raises :
    (PlayerManager.destroy stC2 5).1 =
      Except.error (PyErr.attributeError "NoneType object has no attribute name") := rfl

/-- C2 (amended): for a registered guild whose session's node is `None` or
unavailable, `destroy` evicts the entry and sends no remote command; it
returns without error when the node is non-none (merely unavailable), but
raises an `AttributeError` from the success-log line when the node is
`None` (the entry is nevertheless already evicted). -/
theorem destroy_unavailable_or_none (s : PlayerManager) (g : Nat) (p : Player)
    (h : getPlayer s.players g = some p)
    (hn : p.node = none ∨ ∃ nd, p.node = some nd ∧ nd.available = false) :
    (PlayerManager.destroy s g).2.players = popPlayer s.players g ∧
    (PlayerManager.destroy s g).2.sent = s.sent ∧
    (p.node = none →
      (PlayerManager.destroy s g).1 =
        Except.error (PyErr.attributeError "NoneType object has no attribute name")) ∧
    (∀ nd, p.node = some nd → (PlayerManager.destroy s g).1 = Except.ok ()) := by
  rcases hn with hnone | ⟨nd, hnd, hav⟩
  · simp [PlayerManager.destroy, h, hnone]
  · simp [PlayerManager.destroy, h, hnd, hav]

/-- An unavailable node, for the C2 witness. -/
def nodeU : Node := { name := "U", region := "eu", available := false, penalty := 3, original_players := [] }

/-- A player bound to the unavailable node `nodeU`. -/
def pC2w : Player := { guild_id := 6, node := some nodeU, cleanup_fails := false }

/-- Manager state caching `pC2w` under guild 6. -/
def stC2w : PlayerManager :=
  { players := [(6, pC2w)], default_player := fOk, nodes := [nodeU], sent := [], cleaned := [], logs := [] }

/-- Witness for the amended C2 at a concrete state with an unavailable node. -/
theorem destroy_unavailable_or_none_witness :
    getPlayer stC2w.players 6 = some pC2w ∧
    (pC2w.node = none ∨ ∃ nd, pC2w.node = some nd ∧ nd.available = false) ∧
    ((PlayerManager.destroy stC2w 6).2.players = popPlayer stC2w.players 6 ∧
     (PlayerManager.destroy stC2w 6).2.sent = stC2w.sent ∧
     (pC2w.node = none →
       (PlayerManager.destroy stC2w 6).1 =
         Except.error (PyErr.attributeError "NoneType object has no attribute name")) ∧
     (∀ nd, pC2w.node = some nd → (PlayerManager.destroy stC2w 6).1 = Except.ok ())) :=
  ⟨rfl, Or.inr ⟨nodeU, rfl, rfl⟩,
   destroy_unavailable_or_none stC2w 6 pC2w rfl (Or.inr ⟨nodeU, rfl, rfl⟩)⟩

/-- C5: destroying a registered guild always leaves `get` returning `none`,
and exactly one `op="destroy"` command carrying the session's own
`guild_id` is appended to the transport exactly when the session's node is
non-none and available at call time; otherwise nothing is sent. -/
theorem destroy_evicts_and_sends (s : PlayerManager) (g : Nat) (p : Player)
    (h : getPlayer s.players g = some p) :
    PlayerManager.get (PlayerManager.destroy s g).2 g = none ∧
    (PlayerManager.destroy s g).2.players = popPlayer s.players g ∧
    (∀ nd, p.node = some nd → nd.available = true →
      (PlayerManager.destroy s g).2.sent =
        s.sent ++ [{ node_name := nd.name, op := "destroy", guildId := p.guild_id }]) ∧
    (∀ nd, p.node = some nd → nd.available = false →
      (PlayerManager.destroy s g).2.sent = s.sent) ∧
    (p.node = none → (PlayerManager.destroy s g).2.sent = s.sent) := by
  cases hn : p.node with
  | none => simp [PlayerManager.destroy, PlayerManager.get, h, hn, getPlayer_popPlayer]
  | some nd =>
    by_cases hav : nd.available <;>
      simp [PlayerManager.destroy, PlayerManager.get, h, hn, hav, getPlayer_popPlayer]

/-- An available node, for the C5 witness. -/
def nodeB : Node := { name := "B", region := "eu", available := true, penalty := 2, original_players := [] }

/-- A player bound to the available node `nodeB`. -/
def pC5 : Player := { guild_id := 7, node := some nodeB, cleanup_fails := false }

/-- Manager state caching `pC5` under guild 7. -/
def stC5 : PlayerManager :=
  { players := [(7, pC5)], default_player := fOk, nodes := [nodeB], sent := [], cleaned := [], logs := [] }

/-- Witness for C5 at a concrete state with an available node. -/
theorem destroy_evicts_and_sends_witness :
    getPlayer stC5.players 7 = some pC5 ∧
    (PlayerManager.get (PlayerManager.destroy stC5 7).2 7 = none ∧
     (PlayerManager.destroy stC5 7).2.players = popPlayer stC5.players 7 ∧
     (∀ nd, pC5.node = some nd → nd.available = true →
       (PlayerManager.destroy stC5 7).2.sent =
         stC5.sent ++ [{ node_name := nd.name, op := "destroy", guildId := pC5.guild_id }]) ∧
     (∀ nd, pC5.node = some nd → nd.available = false →
       (PlayerManager.destroy stC5 7).2.sent = stC5.sent) ∧
     (pC5.node = none → (PlayerManager.destroy stC5 7).2.sent = stC5.sent)) :=
  ⟨rfl, destroy_evicts_and_sends stC5 7 pC5 rfl⟩

/-- C9: `remove` on a registered guild evicts the mapping entry, invokes that
session's `cleanup()` exactly once (the cleanup log grows by exactly that
one invocation), and sends zero remote commands; on an unregistered guild it
is a no-op with no cleanup invocation and an unchanged state. -/
theorem remove_semantics (s : PlayerManager) (g : Nat) :
    (∀ p, getPlayer s.players g = some p →
      (PlayerManager.remove s g).2.players = popPlayer s.players g ∧
      (PlayerManager.remove s g).2.cleaned = s.cleaned ++ [p.guild_id] ∧
      (PlayerManager.remove s g).2.sent = s.sent) ∧
    (getPlayer s.players g = none → PlayerManager.remove s g = (Except.ok (), s)) := by
  constructor
  · intro p h
    by_cases hf : p.cleanup_fails <;> simp [PlayerManager.remove, h, hf]
  · intro h
    simp [PlayerManager.remove, h]

/-- Manager state caching `pC5` under guild 7 with no prior cleanups, for the
C9 witness. -/
def stC9 : PlayerManager :=
  { players := [(7, pC5)], default_player := fOk, nodes := [], sent := [], cleaned := [], logs := [] }

/-- Witness for C9: the registered branch at guild 7 and the unregistered
branch at guild 8, both concrete. -/
theorem remove_semantics_witness :
    ((PlayerManager.remove stC9 7).2.players = popPlayer stC9.players 7 ∧
     (PlayerManager.remove stC9 7).2.cleaned = stC9.cleaned ++ [pC5.guild_id] ∧
     (PlayerManager.remove stC9 7).2.sent = stC9.sent) ∧
    PlayerManager.remove stC9 8 = (Except.ok (), stC9) :=
  ⟨(remove_semantics stC9 7).1 pC5 rfl, (remove_semantics stC9 8).2 rfl⟩

/-- C10: `remove` pops the mapping entry before invoking `cleanup()`, so when
the cleanup hook raises, the error propagates but the entry stays evicted:
`get` on that guild returns `none` afterwards and the cleanup was still
invoked. -/
theorem remove_cleanup_error_keeps_eviction (s : PlayerManager) (g : Nat) (p : Player)
    (h : getPlayer s.players g = some p) (hf : p.cleanup_fails = true) :
    (PlayerManager.remove s g).1 = Except.error (PyErr.cleanupError "cleanup raised") ∧
    (PlayerManager.remove s g).2.players = popPlayer s.players g ∧
    PlayerManager.get (PlayerManager.remove s g).2 g = none ∧
    (PlayerManager.remove s g).2.cleaned = s.cleaned ++ [p.guild_id] := by
  simp [PlayerManager.remove, PlayerManager.get, h, hf, getPlayer_popPlayer]

/-- A player whose `cleanup()` hook raises. -/
def pBadCleanup : Player := { guild_id := 4, node := none, cleanup_fails := true }

/-- Manager state caching `pBadCleanup` under guild 4. -/
def stC10 : PlayerManager :=
  { players := [(4, pBadCleanup)], default_player := fOk, nodes := [], sent := [], cleaned := [], logs := [] }

/-- Witness for C10 at a concrete state whose cached player has a raising
cleanup hook. -/
theorem remove_cleanup_error_keeps_eviction_witness :
    getPlayer stC10.players 4 = some pBadCleanup ∧
    pBadCleanup.cleanup_fails = true ∧
    ((PlayerManager.remove stC10 4).1 = Except.error (PyErr.cleanupError "cleanup raised") ∧
     (PlayerManager.remove stC10 4).2.players = popPlayer stC10.players 4 ∧
     PlayerManager.get (PlayerManager.remove stC10 4).2 4 = none ∧
     (PlayerManager.remove stC10 4).2.cleaned = stC10.cleaned ++ [pBadCleanup.guild_id]) :=
  ⟨rfl, rfl, remove_cleanup_error_keeps_eviction stC10 4 pBadCleanup rfl rfl⟩

/-! Lemmas about node selection, for the claim on default-argument routing. -/

theorem bestNode_eq_none {l : List (Nat × Node)} (h : bestNode l = none) : l = [] := by
  cases l with
  | nil => rfl
  | cons a rest =>
    simp only [bestNode] at h
    cases hr : bestNode rest with
    | none => rw [hr] at h; dsimp only at h; simp at h
    | some q => rw [hr] at h; dsimp only at h; split at h <;> simp at h

theorem bestNode_mem : ∀ {l : List (Nat × Node)} {p : Nat × Node}, bestNode l = some p → p ∈ l := by
  intro l
  induction l with
  | nil => intro p h; simp [bestNode] at h
  | cons a rest ih =>
    intro p h
    simp only [bestNode] at h
    cases hr : bestNode rest with
    | none =>
      rw [hr] at h
      dsimp only at h
      simp only [Option.some.injEq] at h
      subst h
      exact List.mem_cons_self a rest
    | some q =>
      rw [hr] at h
      dsimp only at h
      by_cases hc : q.2.penalty < a.2.penalty
      · rw [if_pos hc] at h
        injection h with h
        subst h
        exact List.mem_cons_of_mem a (ih hr)
      · rw [if_neg hc] at h
        injection h with h
        subst h
        exact List.mem_cons_self a rest

theorem bestNode_le : ∀ {l : List (Nat × Node)} {p : Nat × Node}, bestNode l = some p →
    ∀ q ∈ l, p.2.penalty ≤ q.2.penalty := by
  intro l
  induction l with
  | nil => intro p h; simp [bestNode] at h
  | cons a rest ih =>
    intro p h q hq
    simp only [bestNode] at h
    cases hr : bestNode rest with
    | none =>
      rw [hr] at h
      dsimp only at h
      simp only [Option.some.injEq] at h
      subst h
      have : rest = [] := bestNode_eq_none hr
      subst this
      rcases List.mem_cons.mp hq with hq | hq
      · subst hq; exact Nat.le_refl _
      · simp at hq
    | some b =>
      rw [hr] at h
      dsimp only at h
      by_cases hc : b.2.penalty < a.2.penalty
      · rw [if_pos hc] at h
        injection h with h
        subst h
        rcases List.mem_cons.mp hq with hq | hq
        · subst hq; exact Nat.le_of_lt hc
        · exact ih hr q hq
      · rw [if_neg hc] at h
        injection h with h
        subst h
        rcases List.mem_cons.mp hq with hq | hq
        · subst hq; exact Nat.le_refl _
        · exact Nat.le_trans (Nat.not_lt.mp hc) (ih hr q hq)

theorem snd_mem_of_mem_enumNodes : ∀ {l : List Node} {k : Nat} {e : Nat × Node},
    e ∈ enumNodes l k → e.2 ∈ l := by
  intro l
  induction l with
  | nil => intro k e h; simp [enumNodes] at h
  | cons a rest ih =>
    intro k e h
    simp only [enumNodes, List.mem_cons] at h
    rcases h with h | h
    · subst h; exact List.mem_cons_self a rest
    · exact List.mem_cons_of_mem a (ih h)

theorem mem_enumNodes_of_mem : ∀ {l : List Node} {m : Node}, m ∈ l →
    ∀ k, ∃ i, (i, m) ∈ enumNodes l k := by
  intro l
  induction l with
  | nil => intro m h; simp at h
  | cons a rest ih =>
    intro m h k
    rcases List.mem_cons.mp h with h | h
    · exact ⟨k, by simp [enumNodes, h]⟩
    · rcases ih h (k + 1) with ⟨i, hi⟩
      exact ⟨i, by simp only [enumNodes, List.mem_cons]; exact Or.inr hi⟩

theorem mem_availNodes {nodes : List Node} {e : Nat × Node} (h : e ∈ availNodes nodes) :
    e.2 ∈ nodes ∧ e.2.available = true := by
  simp only [availNodes, List.mem_filter] at h
  exact ⟨snd_mem_of_mem_enumNodes h.1, h.2⟩

theorem mem_regionNodes {nodes : List Node} {r : String} {e : Nat × Node}
    (h : e ∈ regionNodes nodes r) :
    e.2 ∈ nodes ∧ e.2.available = true ∧ e.2.region = r := by
  simp only [regionNodes, availNodes, List.mem_filter, decide_eq_true_eq] at h
  exact ⟨snd_mem_of_mem_enumNodes h.1.1, h.1.2, h.2⟩

theorem availNodes_of_mem {nodes : List Node} {m : Node} (hm : m ∈ nodes)
    (ha : m.available = true) : ∃ i, (i, m) ∈ availNodes nodes := by
  rcases mem_enumNodes_of_mem hm 0 with ⟨i, hi⟩
  refine ⟨i, ?_⟩
  simp only [availNodes, List.mem_filter]
  exact ⟨hi, ha⟩

theorem regionNodes_of_mem {nodes : List Node} {r : String} {m : Node} (hm : m ∈ nodes)
    (ha : m.available = true) (hr : m.region = r) : ∃ i, (i, m) ∈ regionNodes nodes r := by
  rcases mem_enumNodes_of_mem hm 0 with ⟨i, hi⟩
  refine ⟨i, ?_⟩
  simp only [regionNodes, availNodes, List.mem_filter, decide_eq_true_eq]
  exact ⟨⟨hi, ha⟩, hr⟩

/-- Selection behaviour of the modelled `find_ideal_node`: the chosen node is
available; when some available node matches the requested region, the choice
is an in-region available node of minimal penalty among those; only when no
available node matches the region is the choice of minimal penalty among all
available nodes. -/
theorem findIdealNode_property {nodes : List Node} {r : String} {i : Nat} {nd : Node}
    (h : findIdealNode nodes r = some (i, nd)) :
    nd.available = true ∧ nd ∈ nodes ∧
    ((∃ m ∈ nodes, m.available = true ∧ m.region = r) →
      nd.region = r ∧ ∀ m ∈ nodes, m.available = true → m.region = r → nd.penalty ≤ m.penalty) ∧
    ((∀ m ∈ nodes, m.available = true → m.region ≠ r) →
      ∀ m ∈ nodes, m.available = true → nd.penalty ≤ m.penalty) := by
  rw [findIdealNode] at h
  by_cases he : (regionNodes nodes r).isEmpty
  · rw [if_pos he] at h
    have hav := mem_availNodes (bestNode_mem h)
    refine ⟨hav.2, hav.1, ?_, ?_⟩
    · rintro ⟨m, hm, hma, hmr⟩
      exfalso
      rcases regionNodes_of_mem hm hma hmr with ⟨j, hj⟩
      rw [List.isEmpty_iff] at he
      rw [he] at hj
      simp at hj
    · intro _ m hm hma
      rcases availNodes_of_mem hm hma with ⟨j, hj⟩
      exact bestNode_le h (j, m) hj
  · rw [if_neg he] at h
    have hreg := mem_regionNodes (bestNode_mem h)
    refine ⟨hreg.2.1, hreg.1, ?_, ?_⟩
    · intro _
      refine ⟨hreg.2.2, ?_⟩
      intro m hm hma hmr
      rcases regionNodes_of_mem hm hma hmr with ⟨j, hj⟩
      exact bestNode_le h (j, m) hj
    · intro hno m hm hma
      exact absurd hreg.2.2 (hno nd hreg.1 hreg.2.1)

/-- C6 (amended): when node, region and endpoint are all left at their Python
defaults, `create` resolves with the default region `'eu'`: it registers a
player on `find_ideal_node(s.nodes, "eu")`, which is an available `eu`-region
node of minimal penalty among available `eu` nodes whenever one exists, and
is the cluster-wide lowest-penalty available node only when no available
`eu`-region node exists. -/
theorem create_default_region_restricted (s : PlayerManager) (g : Nat)
    (get_region : String → String) (h : getPlayer s.players g = none)
    (i : Nat) (nd : Node) (hfind : findIdealNode s.nodes "eu" = some (i, nd)) :
    (PlayerManager.create s g "eu" none none get_region).1 =
      Except.ok (CreateResult.player
        { guild_id := g, node := some nd,
          cleanup_fails := s.default_player.prod_cleanup_fails }) ∧
    nd.available = true ∧
    ((∃ m ∈ s.nodes, m.available = true ∧ m.region = "eu") →
      nd.region = "eu" ∧
      ∀ m ∈ s.nodes, m.available = true → m.region = "eu" → nd.penalty ≤ m.penalty) ∧
    ((∀ m ∈ s.nodes, m.available = true → m.region ≠ "eu") →
      ∀ m ∈ s.nodes, m.available = true → nd.penalty ≤ m.penalty) := by
  have hp := findIdealNode_property hfind
  refine ⟨?_, hp.1, hp.2.2.1, hp.2.2.2⟩
  simp [PlayerManager.create, resolveRegion, h, hfind]

/-- An available eu node with penalty 5, for the C6 counterexample. -/
def nodeEU5 : Node := { name := "A", region := "eu", available := true, penalty := 5, original_players := [] }

/-- An available us node with penalty 1 (cluster-wide minimum). -/
def nodeUS1 : Node := { name := "C", region := "us", available := true, penalty := 1, original_players := [] }

/-- Fresh manager whose registry holds `nodeEU5` and `nodeUS1`. -/
def stC6 : PlayerManager :=
  { players := [], default_player := fOk, nodes := [nodeEU5, nodeUS1], sent := [], cleaned := [], logs := [] }

/-- C6 counterexample: with node, region and endpoint all left at their
Python defaults (`region='eu'`, `endpoint=None`, `node=None`), `create`
registers the player on the eu node with penalty 5 even though an available
node with the cluster-wide lowest penalty 1 exists in region us — selection
is restricted to the default region, not cluster-wide. -/
theorem create_default_not_cluster_wide :
    (PlayerManager.create stC6 7 "eu" none none (fun _ => "")).1 =
      Except.ok (CreateResult.player { guild_id := 7, node := some nodeEU5, cleanup_fails := false }) ∧
    nodeEU5.penalty = 5 ∧ nodeUS1.penalty = 1 ∧ nodeUS1.available = true ∧ nodeUS1 ∈ stC6.nodes := by
  refine ⟨rfl, rfl, rfl, rfl, ?_⟩
  simp [stC6]

/-- Witness for the amended C6 at the same concrete registry. -/
theorem create_default_region_restricted_witness :
    getPlayer stC6.players 7 = none ∧
    findIdealNode stC6.nodes "eu" = some (0, nodeEU5) ∧
    ((PlayerManager.create stC6 7 "eu" none none (fun _ => "")).1 =
      Except.ok (CreateResult.player
        { guild_id := 7, node := some nodeEU5,
          cleanup_fails := stC6.default_player.prod_cleanup_fails }) ∧
     nodeEU5.available = true ∧
     ((∃ m ∈ stC6.nodes, m.available = true ∧ m.region = "eu") →
       nodeEU5.region = "eu" ∧
       ∀ m ∈ stC6.nodes, m.available = true → m.region = "eu" → nodeEU5.penalty ≤ m.penalty) ∧
     ((∀ m ∈ stC6.nodes, m.available = true → m.region ≠ "eu") →
       ∀ m ∈ stC6.nodes, m.available = true → nodeEU5.penalty ≤ m.penalty)) :=
  ⟨rfl, rfl, create_default_region_restricted stC6 7 (fun _ => "") rfl 0 nodeEU5 rfl⟩
